import Mathlib

/-!
Verification of the phone-intelligence enrichment pipeline
(`phone_intelligence.py`) against its natural-language specification.

The Python code is shallowly embedded: each relevant method of the
`PhoneIntelligence` class becomes a Lean function over explicit data
types; Python dicts whose keys the code reads become structures; Python
truthiness of lists/dicts becomes `isEmpty` tests; the third-party
`phonenumbers` library (external to the repository) is abstracted by
function parameters or by its enumerated output type.  The module-level
`import random` never feeds any scoring function; ambient process state
(such as the random generator) is made explicit as an `Env` argument so
that independence from it is a provable statement rather than an
artifact of the embedding.
-/

/-- Ambient process state available to the engine (the module imports
`random`, so the generator seed is part of the environment a run could
in principle consult). -/
structure Env where
  randomSeed : Nat
deriving DecidableEq, Repr

/-- Output type of `phonenumbers.number_type`, the line-type
classification of the external number-format library. -/
inductive PhoneNumberType where
  | MOBILE
  | FIXED_LINE
  | FIXED_LINE_OR_MOBILE
  | TOLL_FREE
  | PREMIUM_RATE
  | SHARED_COST
  | VOIP
  | PERSONAL_NUMBER
  | PAGER
  | UAN
  | VOICEMAIL
  | UNKNOWN
deriving DecidableEq, Repr

/-- Embedding of `_get_line_type_description`: the `type_map` lookup with
default `"Unknown"` for any type absent from the map. -/
def get_line_type_description (t : PhoneNumberType) : String :=
  match t with
  | .MOBILE => "Mobile"
  | .FIXED_LINE => "Landline"
  | .FIXED_LINE_OR_MOBILE => "Fixed Line or Mobile"
  | .TOLL_FREE => "Toll Free"
  | .PREMIUM_RATE => "Premium Rate"
  | .SHARED_COST => "Shared Cost"
  | .VOIP => "VoIP"
  | .PERSONAL_NUMBER => "Personal Number"
  | .PAGER => "Pager"
  | .UAN => "Universal Access Number"
  | .VOICEMAIL => "Voicemail"
  | .UNKNOWN => "Unknown"

/-- The `analysis` dict built by `_perform_security_analysis`: the keys
that `_calculate_risk_score` reads.  `reputation_score` is an arbitrary
integer (Python ints are unbounded). -/
structure SecurityAnalysis where
  is_spam_risk : Bool
  is_voip : Bool
  reputation_score : Int
  risk_indicators : List String
deriving DecidableEq, Repr

/-- The `osint_data` dict built by `_perform_osint_enrichment`: the one
key that `_calculate_risk_score` reads.  `breach_data` truthiness in
Python is non-emptiness of the list. -/
structure OsintData where
  breach_data : List String
deriving DecidableEq, Repr

/-- The merged view the spec calls MergedIntelligence: the pair of
per-category payloads that the scoring engine consumes. -/
structure MergedIntelligence where
  security : SecurityAnalysis
  osint : OsintData
deriving DecidableEq, Repr

/-- Embedding of `_calculate_risk_score` (phone_intelligence.py lines
254-281).  Base 20; +40 on spam risk; +20 on VoIP; +30 on non-empty
breach data; reputation < 30 adds 20, reputation > 70 subtracts 10 with
a floor at 0; final `min 100`.  The `env` argument is the ambient
process state, which the body (faithfully to the source) never reads. -/
def calculate_risk_score (env : Env) (security_analysis : SecurityAnalysis)
    (osint_data : OsintData) : Int :=
  let base0 : Int := 20
  let s1 : Int := if security_analysis.is_spam_risk then base0 + 40 else base0
  let s2 : Int := if security_analysis.is_voip then s1 + 20 else s1
  let s3 : Int := if !osint_data.breach_data.isEmpty then s2 + 30 else s2
  let reputation : Int := security_analysis.reputation_score
  let s4 : Int :=
    if reputation < 30 then s3 + 20
    else if reputation > 70 then max 0 (s3 - 10)
    else s3
  min 100 s4

/-- Risk score of a merged record (the spec's `score(MergedIntelligence)`). -/
def risk_score_of (env : Env) (m : MergedIntelligence) : Int :=
  calculate_risk_score env m.security m.osint

/-- The all-empty MergedIntelligence: no spam signal, no VoIP line type,
no breach data, default reputation 50 (the default `_perform_security_analysis`
installs, and also the value `get('reputation_score', 50)` yields when the
security dict is empty). -/
def emptyMerged : MergedIntelligence :=
  { security := { is_spam_risk := false, is_voip := false,
                  reputation_score := 50, risk_indicators := [] },
    osint := { breach_data := [] } }

/-- A fixed environment for concrete evaluations. -/
def env0 : Env := { randomSeed := 0 }

/-- The MergedIntelligence of the spec's clamping scenario: spam risk,
VoIP line, one breach entry, reputation 20. -/
def clampScenario : MergedIntelligence :=
  { security := { is_spam_risk := true, is_voip := true,
                  reputation_score := 20,
                  risk_indicators := ["VoIP number", "Found in spam database"] },
    osint := { breach_data := ["x"] } }

/-- Modelled from the spec (section 4.4): the `contributingFactors`
sequence the spec prescribes for `score(MergedIntelligence)` — one
`{factor, delta}` entry per applied rule, in rule-evaluation order
(base, spam, VoIP line type, breach data, reputation adjustment).  The
source has no corresponding code: `_calculate_risk_score` returns the
bare integer, so this definition follows the spec's words for the
refinement comparison. -/
def contributing_factors_spec (security_analysis : SecurityAnalysis)
    (osint_data : OsintData) : List (String × Int) :=
  [("base", (20 : Int))]
  ++ (if security_analysis.is_spam_risk then [("spam_risk", (40 : Int))] else [])
  ++ (if security_analysis.is_voip then [("voip_line_type", (20 : Int))] else [])
  ++ (if !osint_data.breach_data.isEmpty then [("breach_data", (30 : Int))] else [])
  ++ (if security_analysis.reputation_score < 30 then [("low_reputation", (20 : Int))]
      else if security_analysis.reputation_score > 70 then [("high_reputation", (-10 : Int))]
      else [])

/-- Sum of the deltas of a contributing-factors sequence. -/
def sum_deltas (l : List (String × Int)) : Int :=
  l.foldl (fun a f => a + f.2) 0

/-- One messaging-app entry of the `messaging_apps` dict built by
`_check_messaging_app_status`; `none` models a falsy (empty) per-app
dict, `some s` a dict whose `online` key is read by the classifier. -/
structure MsgAppStatus where
  online : Bool
deriving DecidableEq, Repr

/-- The `status_data` dict that `_determine_overall_status` reads: its
`online_indicators` list and the optional `messaging_apps` dict (absent
key modelled as `none`; the dict's values in insertion order). -/
structure StatusData where
  online_indicators : List String
  messaging_apps : Option (List (Option MsgAppStatus))
deriving DecidableEq, Repr

/-- Python `app_data and app_data.get('online')` over the values of the
`messaging_apps` dict. -/
def any_app_online (l : List (Option MsgAppStatus)) : Bool :=
  l.any (fun a => match a with
    | some s => s.online
    | none => false)

/-- Embedding of `_determine_overall_status` (phone_intelligence.py
lines 745-763).  The `internalExc` flag models an exception escaping the
`try` body, answered by the bare `except` with `'Unknown'`.  Otherwise:
two or more online indicators give `'Online'`; exactly one gives
`'Recently Online'`; else a truthy (present, non-empty) `messaging_apps`
dict with some app online gives `'Online via messaging'`; else
`'Offline'`. -/
def determine_overall_status (internalExc : Bool) (status_data : StatusData) : String :=
  if internalExc then "Unknown"
  else if 2 ≤ status_data.online_indicators.length then "Online"
  else if status_data.online_indicators.length = 1 then "Recently Online"
  else
    match status_data.messaging_apps with
    | some apps =>
        if apps.isEmpty then "Offline"
        else if any_app_online apps then "Online via messaging"
        else "Offline"
    | none => "Offline"

/-- Embedding of the `network_status` produced by `_detect_online_status`
(phone_intelligence.py lines 412-476): on an unrecoverable error during
collection (`collectExc`, the method's own `except` handler) the status
is `'Error'`; otherwise the status the classifier computes over the
collected data. -/
def detect_online_status_network_status (collectExc : Bool) (internalExc : Bool)
    (status_data : StatusData) : String :=
  if collectExc then "Error" else determine_overall_status internalExc status_data

/-- Modelled from the spec (section 4.5): the priority cascade in the
spec's words — source-level unrecoverable error overrides all and gives
`Error`; two or more independent online indicators give `Online`;
exactly one gives `RecentlyOnline`; any messaging-app signal reporting
online gives `OnlineViaMessaging`; otherwise `Offline`. -/
def online_status_spec (collectErr : Bool) (status_data : StatusData) : String :=
  if collectErr then "Error"
  else if 2 ≤ status_data.online_indicators.length then "Online"
  else if status_data.online_indicators.length = 1 then "Recently Online"
  else if (match status_data.messaging_apps with
           | some apps => any_app_online apps
           | none => false) then "Online via messaging"
  else "Offline"

/-- Top-level keys contributed by `_extract_basic_info` and splatted via
`**basic_info` into the results dict of `analyze_phone_number`: the six
keys when extraction succeeds, and nothing at all when its `except`
handler returns the empty dict. -/
def basic_info_keys (extractionOk : Bool) : List String :=
  if extractionOk then
    ["country", "region", "carrier", "line_type", "timezone", "country_code"]
  else []

/-- Top-level keys of the results dict compiled by `analyze_phone_number`
(phone_intelligence.py lines 54-64), in insertion order, as a function of
whether `_extract_basic_info` succeeded internally. -/
def report_keys (basicOk : Bool) : List String :=
  ["timestamp", "input_number", "risk_score"]
  ++ basic_info_keys basicOk
  ++ ["carrier_info", "security_analysis", "osint_data",
      "technical_details", "network_intelligence"]

/-- The nested category keys that are always present at top level. -/
def nested_category_keys : List String :=
  ["carrier_info", "security_analysis", "osint_data",
   "technical_details", "network_intelligence"]

/-- Region hints tried by `_parse_phone_number`; `none` stands for the
Python `None` hint (international-only parsing). -/
inductive Region where
  | US
  | GB
  | CA
  | AU
deriving DecidableEq, Repr

/-- The fixed `regions_to_try` list of `_parse_phone_number`
(phone_intelligence.py line 76): US, GB, CA, AU, then no hint. -/
def regions_to_try : List (Option Region) :=
  [some .US, some .GB, some .CA, some .AU, none]

/-- The loop body of `_parse_phone_number` over a pending list of region
hints: `parse` abstracts `phonenumbers.parse` (returning `none` where
the library raises), `is_valid_number` abstracts
`phonenumbers.is_valid_number`.  A hint whose parse raises, or parses to
an invalid candidate, is skipped; the first valid candidate is
returned. -/
def parse_first_valid {P : Type} (parse : String → Option Region → Option P)
    (is_valid_number : P → Bool) (phone_input : String) :
    List (Option Region) → Option P
  | [] => none
  | r :: rs =>
      match parse phone_input r with
      | some parsed =>
          if is_valid_number parsed then some parsed
          else parse_first_valid parse is_valid_number phone_input rs
      | none => parse_first_valid parse is_valid_number phone_input rs

/-- Embedding of `_parse_phone_number` (phone_intelligence.py lines
72-90): try the fixed region list in order, return the first candidate
that parses and validates, else `none` (i.e. the invalid-format error). -/
def parse_phone_number {P : Type} (parse : String → Option Region → Option P)
    (is_valid_number : P → Bool) (phone_input : String) : Option P :=
  parse_first_valid parse is_valid_number phone_input regions_to_try

/-- Whether a given region hint yields a parse that passes validation. -/
def valid_at {P : Type} (parse : String → Option Region → Option P)
    (is_valid_number : P → Bool) (phone_input : String) (r : Option Region) : Bool :=
  match parse phone_input r with
  | some parsed => is_valid_number parsed
  | none => false

/-- A parse function for concrete evaluation: the input parses under the
US hint to candidate 1 and under the GB hint to candidate 2, both valid
— an input ambiguous between the first two regions. -/
def parse_us_gb : String → Option Region → Option Nat :=
  fun _ r =>
    match r with
    | some .US => some 1
    | some .GB => some 2
    | _ => none

/-- Every candidate validates (for the ambiguity evaluation). -/
def always_valid : Nat → Bool := fun _ => true

/-- Outcome of `analyze_phone_number`: either the compiled report (here
represented by its parsed number) or the top-level error dict. -/
inductive AnalysisOutcome (P : Type) where
  | report (parsed : P)
  | error (msg : String)
deriving DecidableEq, Repr

/-- The enrichment stages `analyze_phone_number` invokes, in call order,
on the successful branch (phone_intelligence.py lines 33-48); each fans
out to its Signal Sources. -/
def signal_source_stages : List String :=
  ["basic_info", "carrier_info", "security_analysis", "osint_data",
   "technical_details", "network_intelligence"]

/-- Embedding of the entry point `analyze_phone_number`
(phone_intelligence.py lines 16-70), instrumented with the list of
enrichment stages it invokes: a failed parse returns the invalid-format
error dict at once and invokes nothing. -/
def analyze_phone_number_trace {P : Type} (parse : String → Option Region → Option P)
    (is_valid_number : P → Bool) (phone_input : String) :
    AnalysisOutcome P × List String :=
  match parse_phone_number parse is_valid_number phone_input with
  | none => (.error "Invalid phone number format", [])
  | some p => (.report p, signal_source_stages)

/-- A parse function that fails under every hint (no region recognizes
the input). -/
def parse_nothing : String → Option Region → Option Nat := fun _ _ => none

/-- Outputs of the external library lookups that `_extract_basic_info`
consumes: geocoder description, carrier name, timezone list.  Python
string truthiness makes the empty string falsy. -/
structure LibBasicInfo where
  country : String
  carrier_name : String
  timezones : List String
deriving DecidableEq, Repr

/-- The dict `_extract_basic_info` returns on its successful branch. -/
structure BasicInfo where
  country : String
  region : String
  carrier : String
  line_type : String
  timezone : String
  country_code : Int
deriving DecidableEq, Repr

/-- Embedding of the successful branch of `_extract_basic_info`
(phone_intelligence.py lines 92-118): geography, carrier and timezone
with `"Unknown"` sentinels for falsy library answers, the line type via
the type map, and the parsed country code. -/
def extract_basic_info (lib : LibBasicInfo) (t : PhoneNumberType)
    (country_code : Int) : BasicInfo :=
  { country := if lib.country = "" then "Unknown" else lib.country,
    region := if lib.country = "" then "Unknown" else lib.country,
    carrier := if lib.carrier_name = "" then "Unknown" else lib.carrier_name,
    line_type := get_line_type_description t,
    timezone := match lib.timezones with
      | [] => "Unknown"
      | tz :: _ => tz,
    country_code := country_code }

/-- A messaging-app entry as every placeholder probe returns it with no
credentials configured: a non-empty status dict with `online: False`. -/
def offline_app : Option MsgAppStatus := some { online := false }

/-- The `status_data` collected by `_detect_online_status` when no
providers are configured: every placeholder returns offline, so no
online indicator is appended, and the `messaging_apps` dict holds the
four apps (whatsapp, telegram, signal, viber), all offline. -/
def no_provider_status_data : StatusData :=
  { online_indicators := [],
    messaging_apps := some [offline_app, offline_app, offline_app, offline_app] }

/-- The security analysis `_perform_security_analysis` builds with no
providers configured: no spam hit, default reputation 50, and the VoIP
flag exactly when the library classifies the number VoIP. -/
def security_analysis_no_providers (t : PhoneNumberType) : SecurityAnalysis :=
  { is_spam_risk := false,
    is_voip := t == PhoneNumberType.VOIP,
    reputation_score := 50,
    risk_indicators := if t == PhoneNumberType.VOIP then ["VoIP number"] else [] }

/-- The OSINT data `_perform_osint_enrichment` builds with no providers
configured: empty breach data. -/
def osint_no_providers : OsintData :=
  { breach_data := [] }

/-- Claim C1: for every MergedIntelligence the risk score lies in [0,100],
and the all-empty MergedIntelligence scores exactly 20. -/
theorem risk_score_bounds_and_empty (env : Env) (m : MergedIntelligence) :
    0 ≤ risk_score_of env m ∧ risk_score_of env m ≤ 100 ∧
    risk_score_of env emptyMerged = 20 := by
  refine ⟨?_, ?_, by rfl⟩
  · unfold risk_score_of calculate_risk_score
    dsimp only
    split_ifs <;> simp [min_def, max_def]
  · unfold risk_score_of calculate_risk_score
    dsimp only
    split_ifs <;> simp [min_def, max_def]

/-- Claim C6: the clamping scenario (20+40+20+30+20 = 130) scores exactly
100 after the upper clamp, for any ambient environment. -/
theorem risk_score_clamp_scenario (env : Env) :
    risk_score_of env clampScenario = 100 := by
  rfl

/-- Claim C9: the risk scorer consults no ambient randomness or state —
two runs over identical MergedIntelligence give identical scores whatever
the process environment. -/
theorem risk_score_deterministic (e1 e2 : Env) (sa : SecurityAnalysis)
    (od : OsintData) :
    calculate_risk_score e1 sa od = calculate_risk_score e2 sa od := by
  rfl

/-- The messaging-app branch of the code's classifier agrees with the
spec's "any messaging-app signal reports online" wording: an absent or
empty dict yields Offline either way, since no app can report online. -/
theorem msg_branch_eq (o : Option (List (Option MsgAppStatus))) :
    (match o with
     | some apps =>
         if apps.isEmpty then "Offline"
         else if any_app_online apps then "Online via messaging" else "Offline"
     | none => "Offline")
    = (if (match o with
           | some apps => any_app_online apps
           | none => false)
       then "Online via messaging" else "Offline") := by
  rcases o with _ | apps
  · rfl
  · rcases apps with _ | ⟨a, rest⟩
    · rfl
    · simp [List.isEmpty]

/-- Claim C2: the collected network status follows exactly the spec's
priority cascade — the code's classifier (with no internal exception,
composed with the collection step's error handling) coincides with the
cascade written from the spec on every input. -/
theorem overall_status_matches_spec_cascade (collectExc : Bool) (d : StatusData) :
    detect_online_status_network_status collectExc false d = online_status_spec collectExc d := by
  unfold detect_online_status_network_status online_status_spec determine_overall_status
  rcases collectExc with _ | _
  · simp only [Bool.false_eq_true, if_false]
    rw [msg_branch_eq d.messaging_apps]
  · rfl

/-- Claim C10: the classifier is total with range excluded from Error —
every run returns exactly one of the five non-Error states, an internal
exception yields Unknown, and Error arises only from the collection
step's own exception handler. -/
theorem classifier_total_no_error (internalExc : Bool) (d : StatusData) :
    determine_overall_status internalExc d ∈
      (["Online", "Recently Online", "Online via messaging", "Offline", "Unknown"] : List String)
    ∧ determine_overall_status internalExc d ≠ "Error"
    ∧ determine_overall_status true d = "Unknown"
    ∧ detect_online_status_network_status true internalExc d = "Error" := by
  refine ⟨?_, ?_, rfl, rfl⟩
  · unfold determine_overall_status
    rcases d.messaging_apps with _ | apps <;> dsimp only <;> split_ifs <;> simp
  · unfold determine_overall_status
    rcases d.messaging_apps with _ | apps <;> dsimp only <;> split_ifs <;> simp

/-- Counterexample to claim C3: no contributing-factors field exists
anywhere in the report — the risk scorer returns a bare integer and the
results dict contains no such key under either naming convention, in
either extraction outcome. -/
theorem report_has_no_contributing_factors :
    ("contributing_factors" ∉ report_keys true)
    ∧ ("contributingFactors" ∉ report_keys true)
    ∧ ("contributing_factors" ∉ report_keys false)
    ∧ ("contributingFactors" ∉ report_keys false) := by
  refine ⟨?_, ?_, ?_, ?_⟩ <;> decide

/-- Claim C3 as amended: no `contributingFactors` sequence is produced —
the scorer returns only the clamped integer — but that integer equals
the clamped sum of the deltas of the section 4.4 rule sequence (base,
spam, VoIP, breach, reputation, in that order), for every
MergedIntelligence and independent of any input iteration order (the
record has none). -/
theorem risk_score_equals_spec_factor_total (env : Env) (sa : SecurityAnalysis)
    (od : OsintData) :
    calculate_risk_score env sa od
      = min 100 (sum_deltas (contributing_factors_spec sa od)) := by
  unfold calculate_risk_score contributing_factors_spec sum_deltas
  dsimp only
  split_ifs <;> simp

/-- Unfolding equation: a hint under which the parse succeeds validates
exactly when the candidate does. -/
theorem valid_at_some {P : Type} (parse : String → Option Region → Option P)
    (is_valid_number : P → Bool) (phone_input : String) (r : Option Region)
    (p : P) (h : parse phone_input r = some p) :
    valid_at parse is_valid_number phone_input r = is_valid_number p := by
  unfold valid_at
  rw [h]

/-- Unfolding equation: a hint under which the parse raises never validates. -/
theorem valid_at_none {P : Type} (parse : String → Option Region → Option P)
    (is_valid_number : P → Bool) (phone_input : String) (r : Option Region)
    (h : parse phone_input r = none) :
    valid_at parse is_valid_number phone_input r = false := by
  unfold valid_at
  rw [h]

/-- If every pending region hint fails to validate, the loop returns none. -/
theorem parse_first_valid_none {P : Type} (parse : String → Option Region → Option P)
    (is_valid_number : P → Bool) (phone_input : String) :
    ∀ rs : List (Option Region),
      (∀ r ∈ rs, valid_at parse is_valid_number phone_input r = false) →
      parse_first_valid parse is_valid_number phone_input rs = none := by
  intro rs
  induction rs with
  | nil => intro _; rfl
  | cons r rs ih =>
      intro h
      have hr := h r (List.mem_cons_self r rs)
      have htail := ih (fun x hx => h x (List.mem_cons_of_mem r hx))
      unfold parse_first_valid
      cases hp : parse phone_input r with
      | none => simpa using htail
      | some parsed =>
          rw [valid_at_some parse is_valid_number phone_input r parsed hp] at hr
          simp [hr, htail]

/-- If the region hint at index `i` is the first to validate, the loop
returns exactly the parse produced under that hint. -/
theorem parse_first_valid_first {P : Type} (parse : String → Option Region → Option P)
    (is_valid_number : P → Bool) (phone_input : String) :
    ∀ (rs : List (Option Region)) (i : ℕ), i < rs.length →
      valid_at parse is_valid_number phone_input (rs.getD i none) = true →
      (∀ j, j < i → valid_at parse is_valid_number phone_input (rs.getD j none) = false) →
      ∃ p, parse phone_input (rs.getD i none) = some p ∧ is_valid_number p = true ∧
        parse_first_valid parse is_valid_number phone_input rs = some p := by
  intro rs
  induction rs with
  | nil => intro i hi; exact absurd hi (by simp)
  | cons r rs ih =>
      intro i hi hvalid hfirst
      cases i with
      | zero =>
          simp only [List.getD_cons_zero] at hvalid ⊢
          cases hp : parse phone_input r with
          | none =>
              rw [valid_at_none parse is_valid_number phone_input r hp] at hvalid
              exact absurd hvalid (by simp)
          | some parsed =>
              rw [valid_at_some parse is_valid_number phone_input r parsed hp] at hvalid
              refine ⟨parsed, rfl, hvalid, ?_⟩
              unfold parse_first_valid
              simp [hp, hvalid]
      | succ i =>
          have hr : valid_at parse is_valid_number phone_input r = false := by
            have := hfirst 0 (Nat.succ_pos i)
            simpa using this
          have hlen : i < rs.length := by
            simpa [List.length_cons, Nat.succ_lt_succ_iff] using hi
          have hvalid' : valid_at parse is_valid_number phone_input (rs.getD i none) = true := by
            simpa using hvalid
          have hfirst' : ∀ j, j < i →
              valid_at parse is_valid_number phone_input (rs.getD j none) = false := by
            intro j hj
            have := hfirst (j + 1) (Nat.succ_lt_succ hj)
            simpa using this
          obtain ⟨p, hp, hv, hres⟩ := ih i hlen hvalid' hfirst'
          refine ⟨p, by simpa using hp, hv, ?_⟩
          unfold parse_first_valid
          cases hq : parse phone_input r with
          | none => simpa using hres
          | some parsed =>
              rw [valid_at_some parse is_valid_number phone_input r parsed hq] at hr
              simp [hr, hres]

/-- Claim C4: the normalizer tries the region hints in the fixed order
US, GB, CA, AU, no hint; it returns the parse of the first region that
both parses and validates (so an input ambiguous between two regions
resolves to the earlier one), and returns the invalid-format failure
when no region validates. -/
theorem normalizer_region_priority {P : Type} (parse : String → Option Region → Option P)
    (is_valid_number : P → Bool) (phone_input : String) :
    (∀ i, i < regions_to_try.length →
      valid_at parse is_valid_number phone_input (regions_to_try.getD i none) = true →
      (∀ j, j < i →
        valid_at parse is_valid_number phone_input (regions_to_try.getD j none) = false) →
      ∃ p, parse phone_input (regions_to_try.getD i none) = some p ∧
        is_valid_number p = true ∧
        parse_phone_number parse is_valid_number phone_input = some p)
    ∧ ((∀ r ∈ regions_to_try, valid_at parse is_valid_number phone_input r = false) →
      parse_phone_number parse is_valid_number phone_input = none) := by
  constructor
  · intro i hi hvalid hfirst
    exact parse_first_valid_first parse is_valid_number phone_input regions_to_try i hi hvalid hfirst
  · intro h
    exact parse_first_valid_none parse is_valid_number phone_input regions_to_try h

/-- Witness for claim C4: on an input ambiguous between US and GB the
normalizer returns the US candidate, by the priority theorem applied at
index 0 with its hypotheses evaluated. -/
theorem normalizer_region_priority_witness :
    parse_phone_number parse_us_gb always_valid "555-0100" = some 1 := by
  obtain ⟨p, hp, hv, hres⟩ :=
    (normalizer_region_priority parse_us_gb always_valid "555-0100").1 0 (by decide)
      (by decide) (fun j hj => absurd hj (Nat.not_lt_zero j))
  have hp1 : p = 1 := by
    have h0 : parse_us_gb "555-0100" (regions_to_try.getD 0 none) = some 1 := by rfl
    rw [h0] at hp
    exact (Option.some.inj hp).symm
  rw [hres, hp1]

/-- Claim C7: an input failing every region hint makes the entry point
return the invalid-format error immediately, with no Signal Source
invoked — the trace of enrichment stages is empty. -/
theorem invalid_input_short_circuits {P : Type}
    (parse : String → Option Region → Option P) (is_valid_number : P → Bool)
    (phone_input : String)
    (h : ∀ r ∈ regions_to_try, valid_at parse is_valid_number phone_input r = false) :
    analyze_phone_number_trace parse is_valid_number phone_input
      = (.error "Invalid phone number format", []) := by
  unfold analyze_phone_number_trace parse_phone_number
  rw [parse_first_valid_none parse is_valid_number phone_input regions_to_try h]

/-- Witness for claim C7: the short-circuit theorem applied to an input
no region hint validates, with the hypothesis evaluated. -/
theorem invalid_input_short_circuits_witness :
    analyze_phone_number_trace parse_nothing always_valid "not-a-number"
      = (.error "Invalid phone number format", []) :=
  invalid_input_short_circuits parse_nothing always_valid "not-a-number" (by decide)

/-- Counterexample to claim C8: the top-level key set is not identical
across successful analyses — when `_extract_basic_info` fails internally
its `except` handler returns the empty dict, and the `**basic_info`
splat then silently omits the six basic-info keys (no error reaches the
caller, so the analysis still succeeds). -/
theorem report_keys_not_uniform :
    report_keys false ≠ report_keys true
    ∧ "country" ∈ report_keys true
    ∧ "country" ∉ report_keys false := by
  refine ⟨?_, ?_, ?_⟩ <;> decide

/-- Claim C8 as amended: the five nested category fields are present in
every successful report (with empty-dict sentinels when their sources
fail), and when basic-info extraction succeeds the six basic-info keys
are present with `"Unknown"` sentinels for empty library answers; but an
internal extraction failure silently omits those six keys, so the
top-level key set is only stable conditional on that success. -/
theorem report_shape_stable (b : Bool) :
    nested_category_keys.all (fun k => (report_keys b).contains k) = true
    ∧ report_keys true
      = ["timestamp", "input_number", "risk_score", "country", "region",
         "carrier", "line_type", "timezone", "country_code", "carrier_info",
         "security_analysis", "osint_data", "technical_details",
         "network_intelligence"]
    ∧ (extract_basic_info { country := "", carrier_name := "", timezones := [] }
        .UNKNOWN 1).country = "Unknown"
    ∧ (extract_basic_info { country := "", carrier_name := "", timezones := [] }
        .UNKNOWN 1).carrier = "Unknown"
    ∧ (extract_basic_info { country := "", carrier_name := "", timezones := [] }
        .UNKNOWN 1).timezone = "Unknown" := by
  cases b <;> exact ⟨by decide, by decide, rfl, rfl, rfl⟩

/-- Counterexample to claim C5: with no providers configured the code's
network status for the scenario input is `"Offline"` — the collected
data has no online indicator and only offline messaging apps, and
`_determine_overall_status` then falls through to its `'Offline'`
default — not `"Unknown"` as the claim states. -/
theorem no_provider_network_status_is_offline :
    detect_online_status_network_status false false no_provider_status_data = "Offline"
    ∧ detect_online_status_network_status false false no_provider_status_data ≠ "Unknown" := by
  exact ⟨rfl, by decide⟩

/-- Claim C5 as amended: for the scenario input with no providers
configured, the report's line type is the number-format library's
classification, the risk score is 20 (provided the library does not
classify the number VoIP — for `"+1-555-123-4567"` it does not), and the
network status is `"Offline"` (not `"Unknown"`). -/
theorem no_provider_scenario (env : Env) (lib : LibBasicInfo)
    (country_code : Int) (t : PhoneNumberType) (h : t ≠ PhoneNumberType.VOIP) :
    (extract_basic_info lib t country_code).line_type = get_line_type_description t
    ∧ calculate_risk_score env (security_analysis_no_providers t) osint_no_providers = 20
    ∧ detect_online_status_network_status false false no_provider_status_data = "Offline" := by
  refine ⟨rfl, ?_, rfl⟩
  have hv : (t == PhoneNumberType.VOIP) = false := by
    cases t <;> simp_all
  unfold calculate_risk_score security_analysis_no_providers osint_no_providers
  simp [hv]

/-- Witness for claim C5 (amended): the scenario theorem applied at a
mobile classification, country code 1, concrete library answers. -/
theorem no_provider_scenario_witness :
    (extract_basic_info
        { country := "United States", carrier_name := "", timezones := ["America/New_York"] }
        PhoneNumberType.MOBILE 1).line_type = "Mobile"
    ∧ calculate_risk_score env0
        (security_analysis_no_providers PhoneNumberType.MOBILE) osint_no_providers = 20
    ∧ detect_online_status_network_status false false no_provider_status_data = "Offline" :=
  no_provider_scenario env0
    { country := "United States", carrier_name := "", timezones := ["America/New_York"] }
    1 PhoneNumberType.MOBILE (by decide)
